import Mathlib

/-!
Open-IFEM utilities: a shallow embedding.

Embedding of `source/utilities.cpp` (namespace `Utils`: `Time`,
`GridInterpolator`, `GridCreator`) and of the indicator update declared in
`include/fsi.h`.

Conventions of the embedding.

* `double` quantities are rationals (`ℚ`): arithmetic is exact, so every
  statement below is a statement in exact arithmetic; in particular the
  quotient of two doubles is the exact quotient, not its rounding to a double.
* An `unsigned int` has 32 bits: its values are the natural numbers up to
  `UINT_MAX`.  Converting a `double` to `unsigned int` truncates toward zero;
  a truncated value below zero or above `UINT_MAX`, and a remainder by zero,
  are undefined in C++ and are reported as a `Fault`.
* A `void` member function writing through a reference parameter returns the
  pair of its completion status and the final content of that parameter, so
  that a raised exception still shows what the container holds afterwards.
* `Assert(cond, exc)` is deal.II's assertion macro.  In a debug build it
  raises `exc` when `cond` is false; in a release build it expands to nothing.
  The build is the parameter `debug` of the functions that use the macro.
-/

namespace Utils

/-! ## Time -/

/--
Modelled from the spec: the declaration of class `Time` (`utilities.h`) is
not among the sources.  The fields are the ones named by the data model
("current time, step index, fixed step size, output/refinement intervals
(as time durations)") together with the end time; the step index is a
natural number.
-/
structure Time where
  timestep : Nat
  time_current : ℚ
  time_end : ℚ
  delta_t : ℚ
  output_interval : ℚ
  refinement_interval : ℚ
  deriving DecidableEq

/-- `Time::increment` (utilities.cpp, lines 17-21). -/
def Time.increment (t : Time) : Time :=
  { t with time_current := t.time_current + t.delta_t, timestep := t.timestep + 1 }

/-- The state after `n` calls of `increment`. -/
def Time.increment_n : Nat → Time → Time
  | 0, t => t
  | n + 1, t => Time.increment_n n t.increment

/-! ## GridInterpolator -/

/-- `Point<dim>`: the list of its `dim` coordinates. -/
abbrev Point := List ℚ

/-- `Tensor<1, dim, Number>`: the list of its `dim` entries. -/
abbrev Tensor1 := List ℚ

/-- The exceptions met in `GridInterpolator`. -/
inductive Exc where
  | ExcPointNotFound (p : Point)
  | ExcDimensionMismatch (n1 n2 : Nat)
  | ExcInternalError
  | ExcOther (code : Nat)
  deriving DecidableEq, Repr

/--
deal.II's `FiniteElement<dim>` (library type, outside this repository), as far
as `GridInterpolator` uses it: the number of components, the number of
degrees of freedom of a cell, and the value and the reference gradient of
shape function `i`, component `c`, at a point of the reference cell.
-/
structure FiniteElement where
  n_components : Nat
  dofs_per_cell : Nat
  shape_value_component : Nat → Point → Nat → ℚ
  shape_grad_component : Nat → Point → Nat → Tensor1

/--
An active cell of a `DoFHandler<dim>` (deal.II's cell accessor): ownership by
the current partition, the global index of each local degree of freedom, and
the map taking a reference gradient at a reference point to real space.
-/
structure ActiveCell where
  is_locally_owned : Bool
  dof_indices : Nat → Nat
  covariant : Point → Tensor1 → Tensor1

/-- A cell iterator; `none` is the past-the-end iterator `dof_handler.end()`. -/
abbrev active_cell_iterator := Option ActiveCell

/-- deal.II's `DoFHandler<dim>`, as far as `GridInterpolator` uses it. -/
structure DoFHandler where
  dim : Nat
  fe : FiniteElement

/-- The members of `GridInterpolator<dim, VectorType>`. -/
structure GridInterpolator where
  dof_handler : DoFHandler
  point : Point
  cell_point : active_cell_iterator × Point

/--
The constructor `GridInterpolator::GridInterpolator` (utilities.cpp, lines
23-41).  The cell search `GridTools::find_active_cell_around_point` is
deal.II's and is a parameter; only its `ExcPointNotFound` is caught.
-/
def GridInterpolator.construct
    (find_active_cell_around_point :
      DoFHandler → Point → Except Exc (active_cell_iterator × Point))
    (dof_handler : DoFHandler) (point : Point) : Except Exc GridInterpolator :=
  match find_active_cell_around_point dof_handler point with
  | .ok cell_point => .ok ⟨dof_handler, point, cell_point⟩
  | .error (.ExcPointNotFound _) => .ok ⟨dof_handler, point, (none, point)⟩
  | .error e => .error e

/--
deal.II's `GeometryInfo<dim>::distance_to_unit_cell` (library function): the
maximum-norm distance of a point to the unit cell, zero inside it.
-/
def distance_to_unit_cell (p : Point) : ℚ :=
  p.foldl (fun result x => max (max result (-x)) (x - 1)) 0

/--
deal.II's `GeometryInfo<dim>::project_to_unit_cell` (library function): every
coordinate is clamped to the interval from 0 to 1.
-/
def project_to_unit_cell (q : Point) : Point :=
  q.map (fun x => min (max x 0) 1)

/--
deal.II's `FEValues::get_function_values` (library function) for the one
quadrature point `q`: component `c` of the finite element function is the sum
over the degrees of freedom `i` of the cell of the coefficient of `i` times
shape function `i`, component `c`, at `q`.
-/
def get_function_values (fe : FiniteElement) (cell : ActiveCell) (q : Point)
    (fe_function : Nat → ℚ) : List ℚ :=
  (List.range fe.n_components).map (fun c =>
    ((List.range fe.dofs_per_cell).map (fun i =>
      fe_function (cell.dof_indices i) * fe.shape_value_component i q c)).sum)

/--
deal.II's `FEValues::get_function_gradients` (library function) for the one
quadrature point `q`: per component, the sum over the degrees of freedom of
the coefficient times the real-space gradient of the shape function.
-/
def get_function_gradients (dim : Nat) (fe : FiniteElement) (cell : ActiveCell)
    (q : Point) (fe_function : Nat → ℚ) : List Tensor1 :=
  (List.range fe.n_components).map (fun c =>
    (List.range fe.dofs_per_cell).foldl (fun g i =>
      List.zipWith (fun a b => a + fe_function (cell.dof_indices i) * b) g
        (cell.covariant q (fe.shape_grad_component i q c)))
      (List.replicate dim 0))

/-- The tolerance `1e-10` of the two assertions on the mapped point. -/
def unit_cell_tolerance : ℚ := 1 / 10 ^ 10

/--
deal.II's macro `Assert(cond, exc)` (library macro).  In a debug build
(`debug = true`) it raises `exc` when `cond` is false; in a release build
(`debug = false`) it is compiled out and nothing is checked.
-/
def Assert (debug : Bool) (cond : Bool) (exc : Exc) : Except Exc Unit :=
  if debug && !cond then .error exc else .ok ()

/--
`GridInterpolator::point_value` (utilities.cpp, lines 43-70), in a debug
(`debug = true`) or a release (`debug = false`) build.  The result is the
completion status and the final content of `value`.
-/
def GridInterpolator.point_value (self : GridInterpolator) (debug : Bool)
    (fe_function : Nat → ℚ) (value : List ℚ) : Except Exc Unit × List ℚ :=
  let fe := self.dof_handler.fe
  match Assert debug (decide (value.length = fe.n_components))
      (.ExcDimensionMismatch value.length fe.n_components) with
  | .error e => (.error e, value)
  | .ok _ =>
    match self.cell_point.1 with
    | none => (.ok (), List.replicate value.length 0)
    | some cell =>
      if ¬ cell.is_locally_owned then (.ok (), List.replicate value.length 0)
      else
        match Assert debug
            (decide (distance_to_unit_cell self.cell_point.2 < unit_cell_tolerance))
            .ExcInternalError with
        | .error e => (.error e, value)
        | .ok _ =>
          let quadrature := project_to_unit_cell self.cell_point.2
          let u_value := [get_function_values fe cell quadrature fe_function]
          (.ok (), u_value.headD [])

/--
`GridInterpolator::point_gradient` (utilities.cpp, lines 72-103), in a debug
(`debug = true`) or a release (`debug = false`) build.  The result is the
completion status and the final content of `gradient`.
-/
def GridInterpolator.point_gradient (self : GridInterpolator) (debug : Bool)
    (fe_function : Nat → ℚ) (gradient : List Tensor1) : Except Exc Unit × List Tensor1 :=
  let fe := self.dof_handler.fe
  match Assert debug (decide (gradient.length = fe.n_components))
      (.ExcDimensionMismatch gradient.length fe.n_components) with
  | .error e => (.error e, gradient)
  | .ok _ =>
    match self.cell_point.1 with
    | none => (.ok (), gradient.map (fun v => v.map (fun _ => 0)))
    | some cell =>
      if ¬ cell.is_locally_owned then (.ok (), gradient.map (fun v => v.map (fun _ => 0)))
      else
        match Assert debug
            (decide (distance_to_unit_cell self.cell_point.2 < unit_cell_tolerance))
            .ExcInternalError with
        | .error e => (.error e, gradient)
        | .ok _ =>
          let quadrature := project_to_unit_cell self.cell_point.2
          let u_gradient :=
            [get_function_gradients self.dof_handler.dim fe cell quadrature fe_function]
          (.ok (), u_gradient.headD [])

/-! ## GridCreator -/

/-- A face of a cell of a `Triangulation<dim>`: centre, boundary flag, boundary id. -/
structure Face where
  center : Point
  at_boundary : Bool
  boundary_id : Nat
  deriving DecidableEq

/-- An active cell of a `Triangulation<dim>`: its `faces_per_cell` faces. -/
structure TriaCell where
  faces : List Face
  deriving DecidableEq

/-- A `Triangulation<dim>`: its active cells, in iteration order. -/
abbrev Triangulation := List TriaCell

/-- Coordinate `i` of a point, `p[i]`. -/
def coord (p : Point) (i : Nat) : ℚ := p.getD i 0

/-- The tolerance `1e-12` of the tests on a face centre. -/
def face_tolerance : ℚ := 1 / 10 ^ 12

/--
The body of `if (cell->face(f)->at_boundary())` in
`GridCreator<2>::flow_around_cylinder` (utilities.cpp, lines 217-239).
-/
def set_boundary_id_2d (face : Face) : Face :=
  if face.at_boundary then
    if |coord face.center 0 - 25 / 10| < face_tolerance then
      { face with boundary_id := 1 }
    else if |coord face.center 0 - 3 / 10| < face_tolerance then
      { face with boundary_id := 0 }
    else if |coord face.center 1 - 41 / 100| < face_tolerance then
      { face with boundary_id := 3 }
    else if |coord face.center 1| < face_tolerance then
      { face with boundary_id := 2 }
    else
      { face with boundary_id := 4 }
  else face

/--
`GridCreator<2>::flow_around_cylinder` (utilities.cpp, lines 204-242), after
its call of `flow_around_cylinder_2d`: `tria` is the mesh that call built with
deal.II's generators, and the loop over the active cells and their faces sets
the boundary ids.
-/
def GridCreator.flow_around_cylinder_dim2 (tria : Triangulation) : Triangulation :=
  tria.map (fun cell => { cell with faces := cell.faces.map set_boundary_id_2d })

/--
The body of `if (cell->face(f)->at_boundary())` in
`GridCreator<3>::flow_around_cylinder` (utilities.cpp, lines 259-289).
-/
def set_boundary_id_3d (face : Face) : Face :=
  if face.at_boundary then
    if |coord face.center 0 - 25 / 10| < face_tolerance then
      { face with boundary_id := 1 }
    else if |coord face.center 0| < face_tolerance then
      { face with boundary_id := 0 }
    else if |coord face.center 1 - 41 / 100| < face_tolerance then
      { face with boundary_id := 3 }
    else if |coord face.center 1| < face_tolerance then
      { face with boundary_id := 2 }
    else if |coord face.center 2 - 41 / 100| < face_tolerance then
      { face with boundary_id := 5 }
    else if |coord face.center 2| < face_tolerance then
      { face with boundary_id := 4 }
    else
      { face with boundary_id := 6 }
  else face

/--
`GridCreator<3>::flow_around_cylinder` (utilities.cpp, lines 244-292), after
the extrusion of the 2D mesh: `tria` is the extruded mesh, and the loop over
the active cells and their faces sets the boundary ids.
-/
def GridCreator.flow_around_cylinder_dim3 (tria : Triangulation) : Triangulation :=
  tria.map (fun cell => { cell with faces := cell.faces.map set_boundary_id_3d })

end Utils

/-! ## FSI: the indicator update -/

namespace FSI

open Utils

/--
A cell of the fluid mesh, as the indicator update sees it: its vertices and
the indicator stored at each of its quadrature points.
-/
structure FluidCell where
  vertices : List Point
  indicator : List Bool
  deriving DecidableEq

/--
Modelled from the spec: `FSI::point_in_mesh` is declared in `fsi.h` and its
body is not among the sources.  A point is inside the mesh iff the field
sampler built on that mesh finds it and the cell found is locally owned; a
point that is not resolved counts as outside.
-/
def point_in_mesh
    (find_active_cell_around_point :
      DoFHandler → Point → Except Exc (active_cell_iterator × Point))
    (dof_handler : DoFHandler) (point : Point) : Bool :=
  match GridInterpolator.construct find_active_cell_around_point dof_handler point with
  | .ok sampler =>
    match sampler.cell_point.1 with
    | some cell => cell.is_locally_owned
    | none => false
  | .error _ => false

/--
Modelled from the spec: `FSI::update_indicator` is declared in `fsi.h` and its
body is not among the sources.  Every cell of the fluid mesh is classified as
solid-covered iff all of its vertices are inside the solid mesh, and all the
quadrature points of the cell are set to that classification in one pass.
-/
def update_indicator
    (find_active_cell_around_point :
      DoFHandler → Point → Except Exc (active_cell_iterator × Point))
    (solid_dof_handler : DoFHandler) (fluid_cells : List FluidCell) : List FluidCell :=
  fluid_cells.map (fun f_cell =>
    let is_solid :=
      f_cell.vertices.all (point_in_mesh find_active_cell_around_point solid_dof_handler)
    { f_cell with indicator := f_cell.indicator.map (fun _ => is_solid) })

end FSI

/-! ## Example data -/

namespace Example

open Utils

/-- The linear element on the unit interval: one component, two shape functions. -/
def fe_linear : FiniteElement where
  n_components := 1
  dofs_per_cell := 2
  shape_value_component := fun i p _ => if i = 0 then 1 - coord p 0 else coord p 0
  shape_grad_component := fun i _ _ => if i = 0 then [-1] else [1]

/-- The locally owned cell on the interval from 2 to 4, degrees of freedom 0 and 1. -/
def owned_cell : ActiveCell where
  is_locally_owned := true
  dof_indices := fun i => i
  covariant := fun _ g => g.map (fun x => x / 2)

/-- The ghost cell on the interval from 4 to 6, degrees of freedom 1 and 2. -/
def ghost_cell : ActiveCell where
  is_locally_owned := false
  dof_indices := fun i => i + 1
  covariant := fun _ g => g.map (fun x => x / 2)

/-- A one-dimensional mesh carrying the linear element. -/
def dof_handler : DoFHandler where
  dim := 1
  fe := fe_linear

/-- The cell search on the two-cell mesh: a point outside both cells is not found. -/
def search (_ : DoFHandler) (p : Point) : Except Exc (active_cell_iterator × Point) :=
  if 2 ≤ coord p 0 ∧ coord p 0 ≤ 4 then .ok (some owned_cell, [(coord p 0 - 2) / 2])
  else if 4 < coord p 0 ∧ coord p 0 ≤ 6 then .ok (some ghost_cell, [(coord p 0 - 4) / 2])
  else .error (.ExcPointNotFound p)

/-- The nodal values 7, 13, 19 of the field `3 x + 1` at the vertices 2, 4, 6. -/
def nodal_values (i : Nat) : ℚ := 3 * (2 + 2 * (i : ℚ)) + 1

/-- A sampler in the not-found state. -/
def sampler_not_found : GridInterpolator := ⟨dof_handler, [9], (none, [9])⟩

/-- A sampler whose point was found in the ghost cell. -/
def sampler_ghost : GridInterpolator := ⟨dof_handler, [5], (some ghost_cell, [1 / 2])⟩

/-- A sampler whose point was found at the midpoint of the owned cell. -/
def sampler_found : GridInterpolator := ⟨dof_handler, [3], (some owned_cell, [1 / 2])⟩

/-- The map from the reference interval onto the owned cell, `2 + 2 ξ`. -/
def cell_map (ξ : Point) : Point := [2 + 2 * coord ξ 0]

/-- The linear field `3 x + 1`, in every component. -/
def linear_field (_ : Nat) (x : Point) : ℚ := 3 * coord x 0 + 1

/-- The support point of shape function `i` of the linear element: 0 and 1. -/
def support_point (i : Nat) : Point := [(i : ℚ)]

/--
Two fluid cells over the two-cell solid mesh: the first has both vertices in
the owned solid cell and disagreeing indicators, the second has a vertex in
the ghost cell.
-/
def fluid_cells : List FSI.FluidCell :=
  [⟨[[5 / 2], [7 / 2]], [false, true]⟩, ⟨[[7 / 2], [9 / 2]], [true]⟩]

/--
The two cells at the outflow end of the 2D channel, in the top and the bottom
row: each lists its left, right, bottom and top face.  Interior faces carry
the id 255, boundary faces the initial id 0.
-/
def outflow_corner_cells : Triangulation :=
  [⟨[⟨[12 / 5, 287 / 800], false, 255⟩, ⟨[5 / 2, 287 / 800], true, 0⟩,
      ⟨[49 / 20, 123 / 400], false, 255⟩, ⟨[49 / 20, 41 / 100], true, 0⟩]⟩,
    ⟨[⟨[12 / 5, 41 / 800], false, 255⟩, ⟨[5 / 2, 41 / 800], true, 0⟩,
      ⟨[49 / 20, 0], true, 0⟩, ⟨[49 / 20, 41 / 400], false, 255⟩]⟩]

end Example

/-! ## Theorems -/

namespace Utils

/-! ### General facts about the two sampling functions -/

theorem point_value_of_size_ne (self : GridInterpolator) (fe_function : Nat → ℚ)
    (value : List ℚ) (h : value.length ≠ self.dof_handler.fe.n_components) :
    self.point_value true fe_function value =
      (.error (.ExcDimensionMismatch value.length self.dof_handler.fe.n_components), value) := by
  simp [GridInterpolator.point_value, Assert, h]

theorem point_gradient_of_size_ne (self : GridInterpolator) (fe_function : Nat → ℚ)
    (gradient : List Tensor1) (h : gradient.length ≠ self.dof_handler.fe.n_components) :
    self.point_gradient true fe_function gradient =
      (.error (.ExcDimensionMismatch gradient.length self.dof_handler.fe.n_components),
        gradient) := by
  simp [GridInterpolator.point_gradient, Assert, h]

theorem point_value_release_status (self : GridInterpolator) (fe_function : Nat → ℚ)
    (value : List ℚ) : (self.point_value false fe_function value).1 = .ok () := by
  unfold GridInterpolator.point_value
  simp only [Assert, Bool.false_and, Bool.false_eq_true, if_false]
  cases self.cell_point.1 with
  | none => rfl
  | some cell => by_cases h : cell.is_locally_owned = true <;> simp [h]

theorem point_gradient_release_status (self : GridInterpolator) (fe_function : Nat → ℚ)
    (gradient : List Tensor1) : (self.point_gradient false fe_function gradient).1 = .ok () := by
  unfold GridInterpolator.point_gradient
  simp only [Assert, Bool.false_and, Bool.false_eq_true, if_false]
  cases self.cell_point.1 with
  | none => rfl
  | some cell => by_cases h : cell.is_locally_owned = true <;> simp [h]

theorem point_value_of_missed (self : GridInterpolator) (debug : Bool)
    (fe_function : Nat → ℚ)
    (value : List ℚ) (hsize : value.length = self.dof_handler.fe.n_components)
    (hmiss : self.cell_point.1 = none ∨
      ∃ cell, self.cell_point.1 = some cell ∧ cell.is_locally_owned = false) :
    self.point_value debug fe_function value = (.ok (), List.replicate value.length 0) := by
  rcases hmiss with h | ⟨cell, h, hown⟩
  · simp [GridInterpolator.point_value, Assert, hsize, h]
  · simp [GridInterpolator.point_value, Assert, hsize, h, hown]

theorem point_gradient_of_missed (self : GridInterpolator) (debug : Bool)
    (fe_function : Nat → ℚ)
    (gradient : List Tensor1) (hsize : gradient.length = self.dof_handler.fe.n_components)
    (hmiss : self.cell_point.1 = none ∨
      ∃ cell, self.cell_point.1 = some cell ∧ cell.is_locally_owned = false) :
    self.point_gradient debug fe_function gradient =
      (.ok (), gradient.map (fun v => v.map (fun _ => 0))) := by
  rcases hmiss with h | ⟨cell, h, hown⟩
  · simp [GridInterpolator.point_gradient, Assert, hsize, h]
  · simp [GridInterpolator.point_gradient, Assert, hsize, h, hown]

theorem construct_of_not_found
    (find_active_cell_around_point :
      DoFHandler → Point → Except Exc (active_cell_iterator × Point))
    (dof_handler : DoFHandler) (point p : Point)
    (h : find_active_cell_around_point dof_handler point = .error (.ExcPointNotFound p)) :
    GridInterpolator.construct find_active_cell_around_point dof_handler point =
      .ok ⟨dof_handler, point, (none, point)⟩ := by
  simp [GridInterpolator.construct, h]

theorem construct_of_found
    (find_active_cell_around_point :
      DoFHandler → Point → Except Exc (active_cell_iterator × Point))
    (dof_handler : DoFHandler) (point : Point) (cell_point : active_cell_iterator × Point)
    (h : find_active_cell_around_point dof_handler point = .ok cell_point) :
    GridInterpolator.construct find_active_cell_around_point dof_handler point =
      .ok ⟨dof_handler, point, cell_point⟩ := by
  simp [GridInterpolator.construct, h]

/-! ### C1 -/

/--
C1: whenever the cell search raises its point-not-found exception, or returns
the past-the-end iterator, or returns a cell that is not locally owned, the
constructor completes with a sampler, and `point_value` on that sampler, given
an output container with as many entries as the field has components,
completes without an error and leaves every entry of the container zero, in a
debug and in a release build alike.
-/
theorem point_value_zero_when_not_found_or_not_owned
    (find_active_cell_around_point :
      DoFHandler → Point → Except Exc (active_cell_iterator × Point))
    (dof_handler : DoFHandler) (point : Point) (debug : Bool) (fe_function : Nat → ℚ)
    (value : List ℚ)
    (hsize : value.length = dof_handler.fe.n_components)
    (hmiss :
      (∃ p, find_active_cell_around_point dof_handler point = .error (.ExcPointNotFound p)) ∨
      (∃ ref, find_active_cell_around_point dof_handler point = .ok (none, ref)) ∨
      (∃ cell ref, find_active_cell_around_point dof_handler point = .ok (some cell, ref) ∧
        cell.is_locally_owned = false)) :
    ∃ sampler,
      GridInterpolator.construct find_active_cell_around_point dof_handler point =
        .ok sampler ∧
      sampler.point_value debug fe_function value =
        (.ok (), List.replicate dof_handler.fe.n_components 0) := by
  rcases hmiss with ⟨p, h⟩ | ⟨ref, h⟩ | ⟨cell, ref, h, hown⟩
  · refine ⟨_, construct_of_not_found _ _ _ _ h, ?_⟩
    rw [point_value_of_missed _ _ _ _ hsize (Or.inl rfl), hsize]
  · refine ⟨_, construct_of_found _ _ _ _ h, ?_⟩
    rw [point_value_of_missed _ _ _ _ hsize (Or.inl rfl), hsize]
  · refine ⟨_, construct_of_found _ _ _ _ h, ?_⟩
    rw [point_value_of_missed _ _ _ _ hsize (Or.inr ⟨cell, rfl, hown⟩), hsize]

/--
C1 at the two-cell mesh, in a debug build: the point 9 lies in no cell, the
container holds 5.
-/
theorem point_value_zero_when_not_found_or_not_owned_witness :
    [(5 : ℚ)].length = Example.dof_handler.fe.n_components ∧
    Example.search Example.dof_handler [9] = .error (.ExcPointNotFound [9]) ∧
    ∃ sampler,
      GridInterpolator.construct Example.search Example.dof_handler [9] = .ok sampler ∧
      sampler.point_value true Example.nodal_values [5] =
        (.ok (), List.replicate Example.dof_handler.fe.n_components 0) := by
  have hsearch : Example.search Example.dof_handler [9] = .error (.ExcPointNotFound [9]) := by
    norm_num [Example.search, coord]
  exact ⟨rfl, hsearch,
    point_value_zero_when_not_found_or_not_owned Example.search Example.dof_handler [9]
      true Example.nodal_values [5] rfl (Or.inl ⟨[9], hsearch⟩)⟩

/-! ### C2 -/

/--
C2: for a sampler in the not-found state, or whose found cell is not locally
owned, `point_gradient` on a gradient container with as many entries as the
field has components completes without an error, and the container it leaves
has the same length, every tensor in it has kept its number of entries, and
every entry of every tensor is zero, in a debug and in a release build alike.
-/
theorem point_gradient_zero_when_not_found_or_not_owned
    (self : GridInterpolator) (debug : Bool) (fe_function : Nat → ℚ)
    (gradient : List Tensor1)
    (hsize : gradient.length = self.dof_handler.fe.n_components)
    (hmiss : self.cell_point.1 = none ∨
      ∃ cell, self.cell_point.1 = some cell ∧ cell.is_locally_owned = false) :
    (self.point_gradient debug fe_function gradient).1 = .ok () ∧
    (self.point_gradient debug fe_function gradient).2.length = gradient.length ∧
    (self.point_gradient debug fe_function gradient).2.map List.length =
      gradient.map List.length ∧
    ∀ v ∈ (self.point_gradient debug fe_function gradient).2, ∀ x ∈ v, x = 0 := by
  rw [point_gradient_of_missed self debug fe_function gradient hsize hmiss]
  refine ⟨rfl, by simp, by simp [Function.comp_def], ?_⟩
  intro v hv x hx
  simp only [List.mem_map] at hv
  obtain ⟨w, _, rfl⟩ := hv
  simp only [List.mem_map] at hx
  obtain ⟨_, _, rfl⟩ := hx
  rfl

/--
C2 at the sampler found in the ghost cell, in a debug build, the container
holding the tensor 5.
-/
theorem point_gradient_zero_when_not_found_or_not_owned_witness :
    [[(5 : ℚ)]].length = Example.sampler_ghost.dof_handler.fe.n_components ∧
    (Example.sampler_ghost.cell_point.1 = none ∨
      ∃ cell, Example.sampler_ghost.cell_point.1 = some cell ∧
        cell.is_locally_owned = false) ∧
    (Example.sampler_ghost.point_gradient true Example.nodal_values [[5]]).1 = .ok () ∧
    (Example.sampler_ghost.point_gradient true Example.nodal_values [[5]]).2.length =
      [[(5 : ℚ)]].length ∧
    (Example.sampler_ghost.point_gradient true Example.nodal_values [[5]]).2.map
        List.length =
      [[(5 : ℚ)]].map List.length ∧
    ∀ v ∈ (Example.sampler_ghost.point_gradient true Example.nodal_values [[5]]).2,
      ∀ x ∈ v, x = 0 :=
  ⟨rfl, Or.inr ⟨Example.ghost_cell, rfl, rfl⟩,
    point_gradient_zero_when_not_found_or_not_owned Example.sampler_ghost true
      Example.nodal_values [[5]] rfl (Or.inr ⟨Example.ghost_cell, rfl, rfl⟩)⟩

/-! ### C3 -/

/--
C3, the claim as stated fails in a release build, where `Assert` is compiled
out: for a field of one component, `point_value` on a container of two entries
completes without an error, leaving the container zeroed on the not-found
sampler and overwritten by the one interpolated value on the found sampler,
and `point_gradient` on an empty container completes without an error.
-/
theorem release_build_has_no_size_check :
    [(5 : ℚ), 6].length ≠ Example.sampler_not_found.dof_handler.fe.n_components ∧
    [(5 : ℚ), 6].length ≠ Example.sampler_found.dof_handler.fe.n_components ∧
    ([] : List Tensor1).length ≠ Example.sampler_not_found.dof_handler.fe.n_components ∧
    Example.sampler_not_found.point_value false Example.nodal_values [5, 6] =
      (.ok (), [0, 0]) ∧
    Example.sampler_found.point_value false Example.nodal_values [5, 6] = (.ok (), [10]) ∧
    Example.sampler_not_found.point_gradient false Example.nodal_values [] =
      (.ok (), []) := by
  refine ⟨by decide, by decide, by decide, ?_, ?_, ?_⟩
  · simp [GridInterpolator.point_value, Assert, Example.sampler_not_found]
  · norm_num [GridInterpolator.point_value, Assert, Example.sampler_found,
      Example.dof_handler, Example.fe_linear, Example.owned_cell, Example.nodal_values,
      distance_to_unit_cell, unit_cell_tolerance, project_to_unit_cell,
      get_function_values, coord, List.range, List.range.loop]
  · simp [GridInterpolator.point_gradient, Assert, Example.sampler_not_found]

/--
C3, amended: in a debug build, whatever the state of the sampler (found, not
found, found in a cell that is not locally owned), `point_value` on a
container whose length differs from the field's component count, and
`point_gradient` on a gradient container whose length differs from it, raise
the dimension-mismatch error carrying the two counts, and the container is
left as it was passed.  In a release build the assertion is compiled out and
both calls complete without an error.
-/
theorem size_mismatch_aborts_before_anything_else
    (self : GridInterpolator) (fe_function : Nat → ℚ)
    (value : List ℚ) (gradient : List Tensor1)
    (hvalue : value.length ≠ self.dof_handler.fe.n_components)
    (hgradient : gradient.length ≠ self.dof_handler.fe.n_components) :
    self.point_value true fe_function value =
      (.error (.ExcDimensionMismatch value.length self.dof_handler.fe.n_components),
        value) ∧
    self.point_gradient true fe_function gradient =
      (.error (.ExcDimensionMismatch gradient.length self.dof_handler.fe.n_components),
        gradient) ∧
    (self.point_value false fe_function value).1 = .ok () ∧
    (self.point_gradient false fe_function gradient).1 = .ok () :=
  ⟨point_value_of_size_ne self fe_function value hvalue,
    point_gradient_of_size_ne self fe_function gradient hgradient,
    point_value_release_status self fe_function value,
    point_gradient_release_status self fe_function gradient⟩

/--
C3 amended, at the sampler in the not-found state: a value container of two
entries and an empty gradient container, for a field of one component.
-/
theorem size_mismatch_aborts_before_anything_else_witness :
    [(5 : ℚ), 6].length ≠ Example.sampler_not_found.dof_handler.fe.n_components ∧
    ([] : List Tensor1).length ≠ Example.sampler_not_found.dof_handler.fe.n_components ∧
    Example.sampler_not_found.point_value true Example.nodal_values [5, 6] =
      (.error (.ExcDimensionMismatch 2 1), [5, 6]) ∧
    Example.sampler_not_found.point_gradient true Example.nodal_values [] =
      (.error (.ExcDimensionMismatch 0 1), []) ∧
    (Example.sampler_not_found.point_value false Example.nodal_values [5, 6]).1 = .ok () ∧
    (Example.sampler_not_found.point_gradient false Example.nodal_values []).1 = .ok () :=
  ⟨by decide, by decide,
    size_mismatch_aborts_before_anything_else Example.sampler_not_found
      Example.nodal_values [5, 6] [] (by decide) (by decide)⟩

/-! ### C4 -/

theorem foldl_distance_eq_self (p : Point) (result : ℚ) (hresult : 0 ≤ result)
    (hin : ∀ x ∈ p, 0 ≤ x ∧ x ≤ 1) :
    p.foldl (fun result x => max (max result (-x)) (x - 1)) result = result := by
  induction p generalizing result with
  | nil => rfl
  | cons x xs ih =>
    have hx := hin x (List.mem_cons_self x xs)
    have hstep : max (max result (-x)) (x - 1) = result := by
      have h1 : max result (-x) = result := max_eq_left (by linarith [hx.1])
      rw [h1]
      exact max_eq_left (by linarith [hx.2])
    simp only [List.foldl_cons, hstep]
    exact ih result hresult (fun y hy => hin y (List.mem_cons_of_mem x hy))

theorem distance_to_unit_cell_eq_zero (p : Point) (hin : ∀ x ∈ p, 0 ≤ x ∧ x ≤ 1) :
    distance_to_unit_cell p = 0 :=
  foldl_distance_eq_self p 0 le_rfl hin

theorem project_to_unit_cell_eq_self (p : Point) (hin : ∀ x ∈ p, 0 ≤ x ∧ x ≤ 1) :
    project_to_unit_cell p = p := by
  unfold project_to_unit_cell
  induction p with
  | nil => rfl
  | cons x xs ih =>
    have hx := hin x (List.mem_cons_self x xs)
    simp only [List.map_cons, max_eq_left hx.1, min_eq_left hx.2]
    rw [ih (fun y hy => hin y (List.mem_cons_of_mem x hy))]

theorem sum_map_range_eq_sum_range (g : Nat → ℚ) (n : Nat) :
    ((List.range n).map g).sum = ∑ i ∈ Finset.range n, g i := by
  induction n with
  | zero => simp
  | succ n ih => simp [List.range_succ, Finset.sum_range_succ, ih]

theorem get_function_values_getElem? (fe : FiniteElement) (cell : ActiveCell) (q : Point)
    (fe_function : Nat → ℚ) (c : Nat) (hc : c < fe.n_components) :
    (get_function_values fe cell q fe_function)[c]? =
      some (∑ i ∈ Finset.range fe.dofs_per_cell,
        fe_function (cell.dof_indices i) * fe.shape_value_component i q c) := by
  simp [get_function_values, List.getElem?_map, List.getElem?_range hc,
    sum_map_range_eq_sum_range]

theorem point_value_of_inside (self : GridInterpolator) (debug : Bool)
    (fe_function : Nat → ℚ)
    (value : List ℚ) (cell : ActiveCell)
    (hsize : value.length = self.dof_handler.fe.n_components)
    (hfound : self.cell_point.1 = some cell) (hown : cell.is_locally_owned = true)
    (hin : ∀ x ∈ self.cell_point.2, 0 ≤ x ∧ x ≤ 1) :
    self.point_value debug fe_function value =
      (.ok (), get_function_values self.dof_handler.fe cell self.cell_point.2 fe_function) := by
  have htol : distance_to_unit_cell self.cell_point.2 < unit_cell_tolerance := by
    rw [distance_to_unit_cell_eq_zero _ hin]
    norm_num [unit_cell_tolerance]
  simp [GridInterpolator.point_value, Assert, hsize, hfound, hown, htol,
    project_to_unit_cell_eq_self _ hin]

/--
C4: for a sampler whose cell is found and locally owned and whose reference
coordinates lie strictly inside the unit cell, `point_value` on a container of
the right size completes without an error, in a debug and in a release build
alike, and leaves, in component `c`, the sum over the degrees of freedom `i`
of the cell of the coefficient of `i` times shape function `i`, component `c`,
at those reference coordinates.  Consequently, if the reference coordinates
are the preimage of the query point under the cell map, the coefficients are
the values of a field at the mapped support points, and the basis reproduces
that field on the whole unit cell, then component `c` of the result is the
field's component `c` at the query point.
-/
theorem point_value_is_basis_expansion
    (self : GridInterpolator) (debug : Bool) (fe_function : Nat → ℚ) (value : List ℚ)
    (cell : ActiveCell)
    (mapping : Point → Point) (field : Nat → Point → ℚ)
    (support_point : Nat → Point) (component_of : Nat → Nat)
    (hsize : value.length = self.dof_handler.fe.n_components)
    (hfound : self.cell_point.1 = some cell) (hown : cell.is_locally_owned = true)
    (hin : ∀ x ∈ self.cell_point.2, 0 < x ∧ x < 1) :
    (self.point_value debug fe_function value).1 = .ok () ∧
    (self.point_value debug fe_function value).2.length =
      self.dof_handler.fe.n_components ∧
    (∀ c, c < self.dof_handler.fe.n_components →
      (self.point_value debug fe_function value).2[c]? =
        some (∑ i ∈ Finset.range self.dof_handler.fe.dofs_per_cell,
          fe_function (cell.dof_indices i) *
            self.dof_handler.fe.shape_value_component i self.cell_point.2 c)) ∧
    (mapping self.cell_point.2 = self.point →
      (∀ i, i < self.dof_handler.fe.dofs_per_cell →
        fe_function (cell.dof_indices i) =
          field (component_of i) (mapping (support_point i))) →
      (∀ ξ : Point, (∀ x ∈ ξ, 0 ≤ x ∧ x ≤ 1) → ∀ c, c < self.dof_handler.fe.n_components →
        ∑ i ∈ Finset.range self.dof_handler.fe.dofs_per_cell,
          field (component_of i) (mapping (support_point i)) *
            self.dof_handler.fe.shape_value_component i ξ c = field c (mapping ξ)) →
      ∀ c, c < self.dof_handler.fe.n_components →
        (self.point_value debug fe_function value).2[c]? = some (field c self.point)) := by
  have hin' : ∀ x ∈ self.cell_point.2, 0 ≤ x ∧ x ≤ 1 :=
    fun x hx => ⟨(hin x hx).1.le, (hin x hx).2.le⟩
  rw [point_value_of_inside self debug fe_function value cell hsize hfound hown hin']
  refine ⟨rfl, by simp [get_function_values], ?_, ?_⟩
  · intro c hc
    exact get_function_values_getElem? _ _ _ _ c hc
  · intro hmap hinterp hexact c hc
    simp only []
    rw [get_function_values_getElem? _ _ _ _ c hc, ← hmap, ← hexact _ hin' c hc]
    congr 1
    apply Finset.sum_congr rfl
    intro i hi
    rw [hinterp i (Finset.mem_range.mp hi)]

/--
C4 at the midpoint of the owned cell, in a debug build: the field `3 x + 1`,
with nodal values 7 and 13 on the cell, is sampled at the point 3 and the
result is 10.
-/
theorem point_value_is_basis_expansion_witness :
    [(5 : ℚ)].length = Example.sampler_found.dof_handler.fe.n_components ∧
    Example.sampler_found.cell_point.1 = some Example.owned_cell ∧
    Example.owned_cell.is_locally_owned = true ∧
    (∀ x ∈ Example.sampler_found.cell_point.2, 0 < x ∧ x < 1) ∧
    (Example.sampler_found.point_value true Example.nodal_values [5]).1 = .ok () ∧
    (Example.sampler_found.point_value true Example.nodal_values [5]).2[0]? =
      some (Example.linear_field 0 [3]) := by
  have hin : ∀ x ∈ Example.sampler_found.cell_point.2, 0 < x ∧ x < 1 := by
    intro x hx
    simp only [Example.sampler_found, List.mem_singleton] at hx
    subst hx
    norm_num
  have h := point_value_is_basis_expansion Example.sampler_found true
    Example.nodal_values [5]
    Example.owned_cell Example.cell_map Example.linear_field Example.support_point
    (fun _ => 0) rfl rfl rfl hin
  refine ⟨rfl, rfl, rfl, hin, h.1, h.2.2.2 ?_ ?_ ?_ 0 (by decide)⟩
  · norm_num [Example.sampler_found, Example.cell_map, coord]
  · intro i _
    simp [Example.nodal_values, Example.owned_cell, Example.linear_field, Example.cell_map,
      Example.support_point, coord]
  · intro ξ _ c _
    simp only [Example.sampler_found, Example.dof_handler, Example.fe_linear,
      Example.linear_field, Example.cell_map, Example.support_point, coord,
      Finset.sum_range_succ, Finset.sum_range_zero]
    simp
    ring

/-! ### C5 -/

end Utils

namespace FSI

open Utils

/-! ### C6 -/

theorem dedup_map_const_length {α : Type} (l : List α) (b : Bool) (h : l ≠ []) :
    (l.map (fun _ => b)).dedup.length = 1 := by
  rw [← List.card_toFinset, List.map_const', List.toFinset_replicate_of_ne_zero]
  · rfl
  · simpa [List.length_eq_zero] using h

/--
C6: after `update_indicator`, the cells are the same cells with the same
vertices and the same number of quadrature points, and in every cell every
quadrature point carries the value true iff all the vertices of the cell are
inside the solid mesh as decided by `point_in_mesh`; so all the quadrature
points of a cell agree, and, each cell having at least one quadrature point,
the number of distinct indicator values of a cell is exactly 1.
-/
theorem update_indicator_uniform_on_each_cell
    (find_active_cell_around_point :
      DoFHandler → Point → Except Exc (active_cell_iterator × Point))
    (solid_dof_handler : DoFHandler) (fluid_cells : List FluidCell)
    (hquadrature : ∀ f_cell ∈ fluid_cells, f_cell.indicator ≠ []) :
    (update_indicator find_active_cell_around_point solid_dof_handler fluid_cells).map
        (fun f_cell => (f_cell.vertices, f_cell.indicator.length)) =
      fluid_cells.map (fun f_cell => (f_cell.vertices, f_cell.indicator.length)) ∧
    ∀ f_cell ∈ update_indicator find_active_cell_around_point solid_dof_handler fluid_cells,
      (∀ b ∈ f_cell.indicator,
        (b = true ↔ ∀ v ∈ f_cell.vertices,
          point_in_mesh find_active_cell_around_point solid_dof_handler v = true)) ∧
      (∀ b ∈ f_cell.indicator, ∀ b' ∈ f_cell.indicator, b = b') ∧
      f_cell.indicator.dedup.length = 1 := by
  constructor
  · simp [update_indicator, Function.comp_def]
  · intro f_cell hmem
    simp only [update_indicator, List.mem_map] at hmem
    obtain ⟨g_cell, hg, rfl⟩ := hmem
    refine ⟨?_, ?_, dedup_map_const_length _ _ (hquadrature g_cell hg)⟩
    · intro b hb
      simp only [List.mem_map] at hb
      obtain ⟨_, _, rfl⟩ := hb
      simp [List.all_eq_true]
    · intro b hb b' hb'
      simp only [List.mem_map] at hb hb'
      obtain ⟨_, _, rfl⟩ := hb
      obtain ⟨_, _, rfl⟩ := hb'
      rfl

/--
C6 at two fluid cells over the two-cell solid mesh: every cell has a
quadrature point, and the update leaves each cell uniform.
-/
theorem update_indicator_uniform_on_each_cell_witness :
    (∀ f_cell ∈ Example.fluid_cells, f_cell.indicator ≠ []) ∧
    (update_indicator Example.search Example.dof_handler Example.fluid_cells).map
        (fun f_cell => (f_cell.vertices, f_cell.indicator.length)) =
      Example.fluid_cells.map (fun f_cell => (f_cell.vertices, f_cell.indicator.length)) ∧
    ∀ f_cell ∈ update_indicator Example.search Example.dof_handler Example.fluid_cells,
      (∀ b ∈ f_cell.indicator,
        (b = true ↔ ∀ v ∈ f_cell.vertices,
          point_in_mesh Example.search Example.dof_handler v = true)) ∧
      (∀ b ∈ f_cell.indicator, ∀ b' ∈ f_cell.indicator, b = b') ∧
      f_cell.indicator.dedup.length = 1 :=
  ⟨by simp [Example.fluid_cells],
    update_indicator_uniform_on_each_cell Example.search Example.dof_handler
      Example.fluid_cells (by simp [Example.fluid_cells])⟩

end FSI

namespace Utils

/-! ### C7 -/

theorem increment_n_eq (n : Nat) (t : Time) :
    Time.increment_n n t =
      ⟨t.timestep + n, t.time_current + n * t.delta_t, t.time_end, t.delta_t,
        t.output_interval, t.refinement_interval⟩ := by
  induction n generalizing t with
  | zero => simp [Time.increment_n]
  | succ n ih =>
    rw [Time.increment_n, ih]
    simp only [Time.increment, Time.mk.injEq, and_true]
    refine ⟨by omega, ?_⟩
    push_cast
    ring

/--
C7: `increment` raises the step index by exactly 1 and the current time by
exactly `delta_t`, and leaves the end time, the step size, the output interval
and the refinement interval as they were; and for every `n`, `n` increments
from a state with step index 0 and current time 0 give step index `n` and
current time `n * delta_t`, the other four fields unchanged.
-/
theorem increment_adds_one_step_and_delta_t
    (t : Time) (n : Nat) (time_end delta_t output_interval refinement_interval : ℚ) :
    t.increment =
      ⟨t.timestep + 1, t.time_current + t.delta_t, t.time_end, t.delta_t,
        t.output_interval, t.refinement_interval⟩ ∧
    Time.increment_n n ⟨0, 0, time_end, delta_t, output_interval, refinement_interval⟩ =
      ⟨n, n * delta_t, time_end, delta_t, output_interval, refinement_interval⟩ := by
  refine ⟨rfl, ?_⟩
  rw [increment_n_eq]
  simp

/-! ### C8 -/

/--
C9: on the two cells at the outflow end of the 2D channel,
`GridCreator<2>::flow_around_cylinder` gives the outflow faces the id 1, the
face on the upper boundary (centre at y = 0.41) the id 3 and the face on the
lower boundary (centre at y = 0) the id 2, where the comment above the loop
announces 2 for the upper and 3 for the lower boundary; interior faces keep
their id.
-/
theorem flow_around_cylinder_2d_upper_gets_3_lower_gets_2 :
    (GridCreator.flow_around_cylinder_dim2 Example.outflow_corner_cells).map
        (fun cell => cell.faces.map (fun face => face.boundary_id)) =
      [[255, 1, 255, 3], [255, 1, 2, 255]] := by
  norm_num [GridCreator.flow_around_cylinder_dim2, Example.outflow_corner_cells,
    set_boundary_id_2d, coord, face_tolerance, abs_lt]

/-! ### C10 -/

theorem not_near_both (x a b : ℚ) (hab : a + 1 / 10 ≤ b) (ha : |x - a| < face_tolerance) :
    ¬ |x - b| < face_tolerance := by
  intro hb
  rw [abs_lt] at ha hb
  have htol : face_tolerance < 1 / 20 := by norm_num [face_tolerance]
  linarith [ha.2, hb.1]

theorem set_boundary_id_3d_keeps_geometry (face : Face) :
    (set_boundary_id_3d face).center = face.center ∧
    (set_boundary_id_3d face).at_boundary = face.at_boundary := by
  unfold set_boundary_id_3d
  split_ifs <;> exact ⟨rfl, rfl⟩

theorem set_boundary_id_3d_of_interior (face : Face) (h : face.at_boundary = false) :
    set_boundary_id_3d face = face := by
  simp [set_boundary_id_3d, h]

theorem set_boundary_id_3d_of_boundary (face : Face) (h : face.at_boundary = true) :
    (|coord face.center 0| < face_tolerance → (set_boundary_id_3d face).boundary_id = 0) ∧
    (|coord face.center 0 - 25 / 10| < face_tolerance →
      (set_boundary_id_3d face).boundary_id = 1) ∧
    (¬ |coord face.center 0| < face_tolerance →
      ¬ |coord face.center 0 - 25 / 10| < face_tolerance →
      ((|coord face.center 1| < face_tolerance →
          (set_boundary_id_3d face).boundary_id = 2) ∧
       (|coord face.center 1 - 41 / 100| < face_tolerance →
          (set_boundary_id_3d face).boundary_id = 3) ∧
       (¬ |coord face.center 1| < face_tolerance →
        ¬ |coord face.center 1 - 41 / 100| < face_tolerance →
        ((|coord face.center 2| < face_tolerance →
            (set_boundary_id_3d face).boundary_id = 4) ∧
         (|coord face.center 2 - 41 / 100| < face_tolerance →
            (set_boundary_id_3d face).boundary_id = 5) ∧
         (¬ |coord face.center 2| < face_tolerance →
          ¬ |coord face.center 2 - 41 / 100| < face_tolerance →
          (set_boundary_id_3d face).boundary_id = 6))))) := by
  have hx := not_near_both (coord face.center 0) 0 (25 / 10) (by norm_num)
  have hy := not_near_both (coord face.center 1) 0 (41 / 100) (by norm_num)
  have hz := not_near_both (coord face.center 2) 0 (41 / 100) (by norm_num)
  simp only [sub_zero] at hx hy hz
  unfold set_boundary_id_3d
  simp only [h, if_true]
  refine ⟨fun h0 => ?_, fun h1 => ?_, fun h0 h1 => ⟨fun h2 => ?_, fun h3 => ?_,
    fun h2 h3 => ⟨fun h4 => ?_, fun h5 => ?_, fun h4 h5 => ?_⟩⟩⟩
  · simp [hx h0, h0]
  · simp [h1]
  · simp [h0, h1, hy h2, h2]
  · simp [h0, h1, h3]
  · simp [h0, h1, h2, h3, hz h4, h4]
  · simp [h0, h1, h2, h3, h5]
  · simp [h0, h1, h2, h3, h4, h5]

/--
C10: `GridCreator<3>::flow_around_cylinder` keeps the cells and, in each
cell, the faces with their centres and boundary flags; an interior face keeps
its id, and a boundary face gets exactly the id fixed by the tests on its
centre: 0 on x = 0 and 1 on x = 2.5; otherwise 2 on y = 0 and 3 on y = 0.41;
otherwise 4 on z = 0 and 5 on z = 0.41; otherwise 6.
-/
theorem flow_around_cylinder_3d_boundary_ids (tria : Triangulation) :
    List.Forall₂
      (fun cell cell' =>
        List.Forall₂
          (fun face face' =>
            face'.center = face.center ∧
            face'.at_boundary = face.at_boundary ∧
            (face.at_boundary = false → face'.boundary_id = face.boundary_id) ∧
            (face.at_boundary = true →
              (|coord face.center 0| < face_tolerance → face'.boundary_id = 0) ∧
              (|coord face.center 0 - 25 / 10| < face_tolerance → face'.boundary_id = 1) ∧
              (¬ |coord face.center 0| < face_tolerance →
                ¬ |coord face.center 0 - 25 / 10| < face_tolerance →
                ((|coord face.center 1| < face_tolerance → face'.boundary_id = 2) ∧
                 (|coord face.center 1 - 41 / 100| < face_tolerance →
                    face'.boundary_id = 3) ∧
                 (¬ |coord face.center 1| < face_tolerance →
                  ¬ |coord face.center 1 - 41 / 100| < face_tolerance →
                  ((|coord face.center 2| < face_tolerance → face'.boundary_id = 4) ∧
                   (|coord face.center 2 - 41 / 100| < face_tolerance →
                      face'.boundary_id = 5) ∧
                   (¬ |coord face.center 2| < face_tolerance →
                    ¬ |coord face.center 2 - 41 / 100| < face_tolerance →
                    face'.boundary_id = 6)))))))
          cell.faces cell'.faces)
      tria (GridCreator.flow_around_cylinder_dim3 tria) := by
  unfold GridCreator.flow_around_cylinder_dim3
  rw [List.forall₂_map_right_iff, List.forall₂_same]
  intro cell _
  simp only []
  rw [List.forall₂_map_right_iff, List.forall₂_same]
  intro face _
  refine ⟨(set_boundary_id_3d_keeps_geometry face).1,
    (set_boundary_id_3d_keeps_geometry face).2, ?_, ?_⟩
  · intro h
    rw [set_boundary_id_3d_of_interior face h]
  · intro h
    exact set_boundary_id_3d_of_boundary face h

/-! ### C11 -/

end Utils
